import Mathlib

/-!
# LSDAMM mesh core: a shallow embedding in Lean 4

This file models the distributed core of the LSDAMM repository
(`src/native/src/mesh/`): the SWIM membership engine
(`swim_gossip.c`), the coordinator (`node_coordinator.c`) and the
multi-instance manager (`node_manager.c`), and proves (or refutes)
the specification claims about them.

Modelling conventions:
* C machine integers become `Nat`, with an explicit `% 2^w` wherever
  the source can overflow (`uint32_t` counters, `uint16_t` ports).
* C strings become `String` (the fixed 64-byte buffers and `strncpy`
  truncation are abstracted away: no claim concerns truncation).
* Wall-clock and monotonic times become explicit parameters
  (`Int` milliseconds), as do the results of `rand()`.
* The node / task / instance intrusive singly-linked lists become
  `List`s in the same order (new entries are prepended, exactly as
  the C code pushes onto the list head).
* Socket, thread and allocation effects are elided; functions that
  in C can fail only on `malloc`/socket errors are modelled on their
  success path.  Time-valued bookkeeping fields (`last_seen`,
  `state_change_time`, `created_at`) are kept only where a claim
  depends on them.
-/

namespace LSDAMM

/-! ## SWIM data model (swim_gossip.h) -/

/-- Node states, `swim_node_state_t`.  The enum values are
`ALIVE = 0`, `SUSPECT = 1`, `DEAD = 2`, `LEFT = 3`.  The wire carries
the state as a raw `uint8_t` and `swim_handle_message` stores the
received byte into `node->state` by a plain cast, so the stored state
is modelled as a `Nat` (values `≥ 4` are representable, exactly as in
the C object). -/
def NODE_STATE_ALIVE : Nat := 0

def NODE_STATE_SUSPECT : Nat := 1

def NODE_STATE_DEAD : Nat := 2

def NODE_STATE_LEFT : Nat := 3

/-- One membership record, `swim_node_t` (fields used by the claims;
`last_seen`, `state_change_time` and `ping_seq` are elided). -/
structure swim_node where
  id : String
  address : String
  port : Nat
  state : Nat
  incarnation : Nat
  is_local : Bool
  is_main_node : Bool
deriving Repr, DecidableEq

/-- One fixed-width record of a `Sync` payload, `swim_node_update_t`.
`is_main_node` is the raw `uint8_t` from the wire. -/
structure swim_node_update where
  id : String
  address : String
  port : Nat
  state : Nat
  incarnation : Nat
  is_main_node : Nat
deriving Repr, DecidableEq

/-- The engine context, `swim_context_t` (socket, thread, lock,
callback and tunable fields elided). -/
structure swim_context where
  local_id : String
  port : Nat
  incarnation : Nat
  seq_num : Nat
  nodes : List swim_node
  node_count : Nat
  is_main_node : Bool
  messages_sent : Nat
  messages_received : Nat
  probe_success : Nat
  probe_failure : Nat
deriving Repr, DecidableEq

/-- `swim_create_node`: fresh record, `state = ALIVE`,
`incarnation = 1`. -/
def swim_create_node (id address : String) (port : Nat) : swim_node :=
  { id := id, address := address, port := port,
    state := NODE_STATE_ALIVE, incarnation := 1,
    is_local := false, is_main_node := false }

/-- `swim_find_node`: first record with the given id (the C walk of
the singly-linked list from the head). -/
def swim_find_node (nodes : List swim_node) (id : String) : Option swim_node :=
  nodes.find? (fun n => n.id == id)

/-- Replace the first list entry satisfying `p` by its image under
`f` (mutation through the pointer returned by a list walk). -/
def update_first (p : swim_node → Bool) (f : swim_node → swim_node) :
    List swim_node → List swim_node
  | [] => []
  | n :: rest => if p n then f n :: rest else n :: update_first p f rest

/-- `swim_update_node_state`: store the new state (the callback and
`state_change_time` are elided; the function is a no-op when the
state is unchanged, which stores the same fields either way). -/
def swim_update_node_state (n : swim_node) (new_state : Nat) : swim_node :=
  if n.state = new_state then n else { n with state := new_state }

/-- `swim_add_node`: if a record with the same id exists, overwrite
its incarnation and state from the argument; otherwise push the new
record onto the head of the list and bump `node_count`. -/
def swim_add_node (ctx : swim_context) (node : swim_node) : swim_context :=
  if (swim_find_node ctx.nodes node.id).isSome then
    let upd : swim_node → swim_node := fun m =>
      swim_update_node_state { m with incarnation := node.incarnation } node.state
    { ctx with nodes := update_first (fun m => m.id == node.id) upd ctx.nodes }
  else
    { ctx with nodes := node :: ctx.nodes, node_count := ctx.node_count + 1 }

/-- `swim_init` on its success path (socket creation and bind
assumed to succeed): local record registered with `is_local = true`,
context `incarnation = 1`. -/
def swim_init (local_id : String) (port : Nat) : swim_context :=
  let p := if port ≠ 0 then port else 7946
  let base : swim_context :=
    { local_id := local_id, port := p, incarnation := 1, seq_num := 0,
      nodes := [], node_count := 0, is_main_node := false,
      messages_sent := 0, messages_received := 0,
      probe_success := 0, probe_failure := 0 }
  swim_add_node base { swim_create_node local_id "127.0.0.1" p with is_local := true }

/-- `swim_get_local_node`: first record with `is_local` set. -/
def swim_get_local_node (ctx : swim_context) : Option swim_node :=
  ctx.nodes.find? (fun n => n.is_local)

/-- `swim_get_node_count`: walk the list counting records whose
stored state equals the argument. -/
def swim_get_node_count (ctx : swim_context) (state : Nat) : Nat :=
  ctx.nodes.countP (fun n => n.state == state)

/-- `swim_set_main_node`: set the context flag; if a local record
exists, set its flag too and bump the context-level `incarnation`
(a `uint32_t`, hence the modulus).  The local record's own
`incarnation` field is not touched. -/
def swim_set_main_node (ctx : swim_context) (is_main : Bool) : swim_context :=
  match swim_get_local_node ctx with
  | none => { ctx with is_main_node := is_main }
  | some _ =>
    let upd : swim_node → swim_node := fun n => { n with is_main_node := is_main }
    { ctx with
        is_main_node := is_main,
        nodes := update_first (fun n => n.is_local) upd ctx.nodes,
        incarnation := (ctx.incarnation + 1) % 2 ^ 32 }

/-- The body of the per-record loop of the `SWIM_MSG_SYNC` case of
`swim_handle_message` (lines 385-406): skip the local id; create an
unknown node carrying the record's state, incarnation and main flag;
for a known node adopt state, incarnation and main flag only when
the record's incarnation is strictly greater. -/
def swim_apply_sync_update (ctx : swim_context) (u : swim_node_update) : swim_context :=
  if u.id == ctx.local_id then ctx
  else
    match swim_find_node ctx.nodes u.id with
    | none =>
      swim_add_node ctx
        { swim_create_node u.id u.address u.port with
          state := u.state, incarnation := u.incarnation,
          is_main_node := u.is_main_node != 0 }
    | some node =>
      if node.incarnation < u.incarnation then
        let upd : swim_node → swim_node := fun m =>
          swim_update_node_state
            { m with incarnation := u.incarnation,
                     is_main_node := u.is_main_node != 0 } u.state
        { ctx with nodes := update_first (fun m => m.id == u.id) upd ctx.nodes }
      else ctx

/-- The whole `SWIM_MSG_SYNC` record loop: records applied in payload
order. -/
def swim_handle_sync (ctx : swim_context) (updates : List swim_node_update) : swim_context :=
  updates.foldl swim_apply_sync_update ctx

/-- The record array serialized by `swim_send_sync`: the node list in
list order, capped at 50 records (`while (node && count < 50)`). -/
def swim_sync_records (nodes : List swim_node) : List swim_node_update :=
  (nodes.take 50).map (fun n =>
    { id := n.id, address := n.address, port := n.port,
      state := n.state, incarnation := n.incarnation,
      is_main_node := if n.is_main_node then 1 else 0 })

/-! ## Datagram bounds of `swim_handle_message`

`swim_handle_message(ctx, from, data, len)` receives `len` bytes.
The struct sizes below are those of the x86-64 layout of the types in
`swim_gossip.h` (natural alignment, no packing):
`swim_message_header_t` = 76 bytes (u8, u8, u16, u32, char[64], u32),
`swim_sync_t` = 80 bytes (header + u32 `node_count`),
`swim_node_update_t` = 140 bytes (char[64], char[64], u16, u8, pad,
u32, u8, pad). -/

def sizeof_swim_message_header : Nat := 76

def sizeof_swim_sync : Nat := 80

def sizeof_swim_node_update : Nat := 140

/-- The guard-relevant view of one received datagram: its received
byte count, the `type` byte of its header and, for a `Sync`, the
`node_count` field (a `uint32_t` read from offset 76). -/
structure swim_datagram where
  len : Nat
  msg_type : Nat
  node_count : Nat
deriving Repr, DecidableEq

/-- How many `swim_node_update_t` array elements the `SWIM_MSG_SYNC`
branch of `swim_handle_message` dereferences on a given datagram.
The only length validation in the function is the initial
`if (len < sizeof(swim_message_header_t)) return;`; after it, the
`Sync` case iterates `for (i = 0; i < sync->node_count; i++)` over
`updates[i]` with no further check against `len`. -/
def swim_handle_message_sync_reads (d : swim_datagram) : Nat :=
  if d.len < sizeof_swim_message_header then 0
  else if d.msg_type = 3 then d.node_count
  else 0

/-- The datagram byte extent spanned by the `Sync` header plus the
first `k` records of its update array. -/
def sync_bytes_extent (k : Nat) : Nat :=
  sizeof_swim_sync + k * sizeof_swim_node_update

/-! ## The gossip-round sync counter

`swim_gossip_round` keeps `static int sync_counter = 0;` — a
function-scope C `static`, i.e. one counter per *process*, shared by
every `swim_context_t` whose worker calls the function.  A round
that found no probe target leaves the counter alone and sends
nothing; a round that found a target always sends the `Ping`,
increments the counter, and when it reaches 5 also sends the `Sync`
and resets the counter. -/

/-- One execution of `swim_gossip_round` seen through the counter:
input `has_target` says whether `swim_select_random_node` returned a
node.  Result: (sent a `Ping`, sent a `Sync`, new counter). -/
def gossip_round_step (counter : Nat) (has_target : Bool) : Bool × Bool × Nat :=
  if has_target then
    if counter + 1 ≥ 5 then (true, true, 0) else (true, false, counter + 1)
  else (false, false, counter)

/-- The process-level semantics the code implements: all engines
share the single `static` counter.  Each list entry is one round
`(engine label, found a target)`; the result records, per round,
the engine label and whether that round sent a `Sync`. -/
def run_gossip : List (Nat × Bool) → Nat → List (Nat × Bool)
  | [], _ => []
  | (e, ht) :: rest, counter =>
    let st := gossip_round_step counter ht
    (e, st.2.1) :: run_gossip rest st.2.2

/-- The per-engine semantics the claim describes: each engine label
has its own counter (given as a function from labels, initially 0
everywhere). -/
def run_gossip_per_engine : List (Nat × Bool) → (Nat → Nat) → List (Nat × Bool)
  | [], _ => []
  | (e, ht) :: rest, counters =>
    let st := gossip_round_step (counters e) ht
    (e, st.2.1) :: run_gossip_per_engine rest (fun x => if x = e then st.2.2 else counters x)

/-! ## Coordinator (node_coordinator.h / node_coordinator.c) -/

/-- `coordinator_state_t`. -/
inductive coordinator_state where
  | follower
  | candidate
  | leader
deriving Repr, DecidableEq

/-- `task_t` (the owned payload buffer is kept as its length; the
`assigned_node` and `retries` fields are zero-initialised and never
written by the code, so they are elided). -/
structure task where
  task_id : String
  type : Nat
  payload_len : Nat
  created_at : Int
  deadline : Int
deriving Repr, DecidableEq

/-- `node_coordinator_t` (the raw `swim` pointer is passed explicitly
to each operation; callbacks are modelled as returned event lists). -/
structure node_coordinator where
  state : coordinator_state
  is_main_node : Bool
  leader_id : String
  term : Nat
  election_timeout : Int
  votes_received : Nat
  pending_tasks : List task
  completed_tasks : List task
  pending_count : Nat
  completed_count : Nat
  tasks_processed : Nat
  tasks_failed : Nat
deriving Repr, DecidableEq

/-- `coordinator_init` on its success path.  `now` is `get_time_ms()`
and `rand_timeout` the value of `random_election_timeout()`. -/
def coordinator_init (ctx : swim_context) (start_as_main : Bool)
    (now rand_timeout : Int) : node_coordinator × swim_context :=
  let coord : node_coordinator :=
    { state := if start_as_main then .leader else .follower,
      is_main_node := start_as_main,
      leader_id := "",
      term := 1,
      election_timeout := now + rand_timeout,
      votes_received := 0,
      pending_tasks := [], completed_tasks := [],
      pending_count := 0, completed_count := 0,
      tasks_processed := 0, tasks_failed := 0 }
  if start_as_main then
    match swim_get_local_node ctx with
    | some l => ({ coord with leader_id := l.id }, swim_set_main_node ctx true)
    | none => (coord, ctx)
  else (coord, ctx)

/-- `coordinator_start_election`: become Candidate, bump the term
(`uint32_t`), vote for self, reset the deadline; then auto-win at
once when at most one node is Alive. -/
def coordinator_start_election (coord : node_coordinator) (ctx : swim_context)
    (now rand_timeout : Int) : node_coordinator × swim_context :=
  let coord :=
    { coord with
        state := .candidate,
        term := (coord.term + 1) % 2 ^ 32,
        votes_received := 1,
        election_timeout := now + rand_timeout }
  let alive := swim_get_node_count ctx NODE_STATE_ALIVE
  if alive ≤ 1 then
    let coord := { coord with state := .leader }
    match swim_get_local_node ctx with
    | some l =>
      ({ coord with leader_id := l.id, is_main_node := true }, swim_set_main_node ctx true)
    | none => ({ coord with is_main_node := true }, ctx)
  else (coord, ctx)

/-- The Leader drain loop of `coordinator_process`: walk the pending
list from its head; per task, bump `tasks_processed` (`uint64_t`),
push the task onto the completed list head, bump `completed_count`
and decrement `pending_count` (both `uint32_t`), and fire
`on_task_complete(task_id, true)`.  Returns the new completed list,
the three counters and the callback events in call order. -/
def drain_loop : List task → List task → Nat → Nat → Nat →
    List task × Nat × Nat × Nat × List (String × Bool)
  | [], completed, pc, cc, tp => (completed, pc, cc, tp, [])
  | t :: rest, completed, pc, cc, tp =>
    let r := drain_loop rest (t :: completed) ((pc + (2 ^ 32 - 1)) % 2 ^ 32)
      ((cc + 1) % 2 ^ 32) ((tp + 1) % 2 ^ 64)
    (r.1, r.2.1, r.2.2.1, r.2.2.2.1, (t.task_id, true) :: r.2.2.2.2)

/-- `coordinator_process`.  Besides the updated coordinator and swim
context it returns the `on_task_complete` events fired during the
call (task id and the `success` flag). -/
def coordinator_process (coord : node_coordinator) (ctx : swim_context)
    (now rand_timeout : Int) :
    node_coordinator × swim_context × List (String × Bool) :=
  match coord.state with
  | .follower =>
    if now > coord.election_timeout then
      let r := coordinator_start_election coord ctx now rand_timeout
      (r.1, r.2, [])
    else (coord, ctx, [])
  | .candidate =>
    let alive := swim_get_node_count ctx NODE_STATE_ALIVE
    if alive / 2 < coord.votes_received then
      let coord := { coord with state := .leader }
      match swim_get_local_node ctx with
      | some l =>
        ({ coord with leader_id := l.id, is_main_node := true },
          swim_set_main_node ctx true, [])
      | none => ({ coord with is_main_node := true }, ctx, [])
    else (coord, ctx, [])
  | .leader =>
    let r := drain_loop coord.pending_tasks coord.completed_tasks
      coord.pending_count coord.completed_count coord.tasks_processed
    ({ coord with
        pending_tasks := [],
        completed_tasks := r.1,
        pending_count := r.2.1,
        completed_count := r.2.2.1,
        tasks_processed := r.2.2.2.1 },
      ctx, r.2.2.2.2)

/-- `coordinator_submit_task` on its success path.  The generated id
`"task-<unix_seconds>-<rand4>"` is passed in as `tid` (its two random
inputs are parameters of the model); the payload is kept as its byte
count.  The task is pushed onto the head of the pending list. -/
def coordinator_submit_task (coord : node_coordinator) (tid : String)
    (type : Nat) (len : Nat) (now : Int) : node_coordinator :=
  let t : task :=
    { task_id := tid, type := type, payload_len := len,
      created_at := now, deadline := now + 30000 }
  { coord with
      pending_tasks := t :: coord.pending_tasks,
      pending_count := (coord.pending_count + 1) % 2 ^ 32 }

/-! ## Instance manager (node_manager.h / node_manager.c) -/

/-- `node_instance_t` (fields used by the claims; the owned swim and
coordinator contexts and the statistics are elided — port accounting
and counts are all the claims touch). -/
structure node_instance where
  id : String
  swim_port : Nat
  ws_port : Nat
  is_main_node : Bool
  is_running : Bool
deriving Repr, DecidableEq

/-- `node_instance_config_t` (seed fields elided: no claim joins a
seed). -/
structure node_instance_config where
  node_id : String
  swim_port : Nat
  ws_port : Nat
  is_main_node : Bool
  auto_start : Bool
deriving Repr, DecidableEq

/-- `node_manager_t`. -/
structure node_manager where
  server_id : String
  instances : List node_instance
  instance_count : Nat
  max_instances : Nat
  port_range_start : Nat
  port_range_end : Nat
  next_available_port : Nat
deriving Repr, DecidableEq

/-- `node_manager_init`: note the defaults — a zero `port_start`
becomes 7946, but a zero `port_end` becomes `port_start + 100`
computed from the *raw* argument (all three fields are `uint16_t`,
hence the modulus). -/
def node_manager_init (server_id : String) (port_start port_end : Nat) : node_manager :=
  let start := if port_start ≠ 0 then port_start else 7946
  { server_id := server_id,
    instances := [], instance_count := 0,
    max_instances := 16,
    port_range_start := start,
    port_range_end := if port_end ≠ 0 then port_end else (port_start + 100) % 2 ^ 16,
    next_available_port := start }

/-- The in-use check of `node_manager_allocate_port`: a port is taken
when any owned instance holds it as its membership or application
port. -/
def port_in_use (instances : List node_instance) (port : Nat) : Bool :=
  instances.any (fun n => n.swim_port == port || n.ws_port == port)

/-- The scan loop of `node_manager_allocate_port`: the `for` loop
runs `range_end - range_start` times (the `fuel`); `port` starts at
the cursor and advances cyclically (`port++` then wrap to
`range_start` when it reaches `range_end`). -/
def find_free_port (instances : List node_instance) (range_start range_end : Nat) :
    Nat → Nat → Option Nat
  | 0, _ => none
  | fuel + 1, port =>
    if port_in_use instances port then
      let next := if port + 1 ≥ range_end then range_start else port + 1
      find_free_port instances range_start range_end fuel next
    else some port

/-- `node_manager_allocate_port`: on success advance the cursor past
the returned port (cyclically); on exhaustion return 0 and leave the
manager unchanged. -/
def node_manager_allocate_port (mgr : node_manager) : Nat × node_manager :=
  match find_free_port mgr.instances mgr.port_range_start mgr.port_range_end
      (mgr.port_range_end - mgr.port_range_start) mgr.next_available_port with
  | some port =>
    let next := if port + 1 ≥ mgr.port_range_end then mgr.port_range_start else port + 1
    (port, { mgr with next_available_port := next })
  | none => (0, mgr)

/-- `generate_node_id` minus its `time(NULL)` suffix (the timestamp
only de-duplicates ids and no claim depends on it). -/
def generate_node_id (server_id : String) (index : Nat) : String :=
  server_id ++ "-node-" ++ toString index

/-- `node_manager_start_node` restricted to the state it changes: set
`is_running` on the named instance (the `swim_start` thread spawn is
elided and assumed to succeed). -/
def node_manager_start_node (mgr : node_manager) (node_id : String) : node_manager :=
  { mgr with
      instances := mgr.instances.map (fun n =>
        if n.id == node_id then { n with is_running := true } else n) }

/-- `node_manager_create_node` on the paths the claims exercise
(`calloc`, `swim_init` and `coordinator_init` assumed to succeed;
seed join elided).  Faithfully in source order: capacity check; swim
port — taken from the config or allocated, a failed allocation
(port 0) aborts; ws port — taken from the config or allocated with
*no* failure check; construct; prepend to the list; optional
auto-start. -/
def node_manager_create_node (mgr : node_manager) (config : node_instance_config) :
    Option node_instance × node_manager :=
  if mgr.max_instances ≤ mgr.instance_count then (none, mgr)
  else
    let r1 := if config.swim_port = 0 then node_manager_allocate_port mgr
              else (config.swim_port, mgr)
    if config.swim_port = 0 ∧ r1.1 = 0 then (none, r1.2)
    else
      let r2 := if config.ws_port = 0 then node_manager_allocate_port r1.2
                else (config.ws_port, r1.2)
      let mgr := r2.2
      let node : node_instance :=
        { id := if config.node_id ≠ "" then config.node_id
                else generate_node_id mgr.server_id mgr.instance_count,
          swim_port := r1.1,
          ws_port := r2.1,
          is_main_node := config.is_main_node,
          is_running := false }
      let mgr := { mgr with
                     instances := node :: mgr.instances,
                     instance_count := mgr.instance_count + 1 }
      let mgr := if config.auto_start then node_manager_start_node mgr node.id else mgr
      (some node, mgr)

/-- `node_manager_total_count`. -/
def node_manager_total_count (mgr : node_manager) : Nat :=
  mgr.instance_count

/-- Well-formedness of the manager's allocation cursor: the range
starts above 0 and, whenever the range is non-empty, the cursor lies
inside it.  `node_manager_init` establishes it and
`node_manager_allocate_port` preserves it. -/
def alloc_wf (mgr : node_manager) : Prop :=
  0 < mgr.port_range_start ∧
  (mgr.port_range_start < mgr.port_range_end →
    mgr.port_range_start ≤ mgr.next_available_port ∧
      mgr.next_available_port < mgr.port_range_end)

/-! ## Helper lemmas -/

theorem update_first_find? (p : swim_node → Bool) (f : swim_node → swim_node)
    (hf : ∀ n, p n = true → p (f n) = true) :
    ∀ (l : List swim_node) (n : swim_node), l.find? p = some n →
      (update_first p f l).find? p = some (f n) := by
  intro l
  induction l with
  | nil => intro n h; simp [List.find?] at h
  | cons a l ih =>
    intro n h
    by_cases hp : p a = true
    · rw [List.find?_cons_of_pos _ hp] at h
      cases h
      simp [update_first, hp, List.find?_cons_of_pos _ (hf a hp)]
    · rw [List.find?_cons_of_neg _ hp] at h
      simp [update_first, hp, List.find?_cons_of_neg _ hp, ih n h]

theorem update_first_of_none (p : swim_node → Bool) (f : swim_node → swim_node) :
    ∀ l : List swim_node, l.find? p = none → update_first p f l = l := by
  intro l
  induction l with
  | nil => intro _; rfl
  | cons a l ih =>
    intro h
    match hp : p a with
    | true => rw [List.find?_cons_of_pos _ hp] at h; exact absurd h (by simp)
    | false =>
      rw [List.find?_cons_of_neg _ (by simp [hp])] at h
      simp [update_first, hp, ih h]

theorem update_first_mem (p : swim_node → Bool) (f : swim_node → swim_node) :
    ∀ (l : List swim_node) (n : swim_node), n ∈ update_first p f l →
      n ∈ l ∨ ∃ m ∈ l, n = f m := by
  intro l
  induction l with
  | nil => intro n h; simp [update_first] at h
  | cons a l ih =>
    intro n h
    simp only [update_first] at h
    by_cases hp : p a = true
    · rw [if_pos hp] at h
      rcases List.mem_cons.mp h with h | h
      · exact Or.inr ⟨a, List.mem_cons_self .., h⟩
      · exact Or.inl (List.mem_cons_of_mem _ h)
    · rw [if_neg hp] at h
      rcases List.mem_cons.mp h with h | h
      · exact Or.inl (h ▸ List.mem_cons_self ..)
      · rcases ih n h with h | ⟨m, hm, hmn⟩
        · exact Or.inl (List.mem_cons_of_mem _ h)
        · exact Or.inr ⟨m, List.mem_cons_of_mem _ hm, hmn⟩

/-! ## Claim theorems -/

/-- C2: the claim says a `Sync` whose declared `node_count` implies
more record bytes than the datagram contains is dropped before the
record array is dereferenced, so no handler branch reads beyond the
received byte count.  The code refutes this: on an 80-byte datagram
(exactly the `swim_sync_t` size, so the header-length guard passes)
whose `node_count` field says 1000, the `SWIM_MSG_SYNC` branch
iterates over all 1000 update records, an array extending to byte
140080 — far past the 80 bytes received. -/
theorem swim_handle_message_sync_over_read :
    ¬ (swim_datagram.mk 80 3 1000).len < sizeof_swim_message_header ∧
    swim_handle_message_sync_reads (swim_datagram.mk 80 3 1000) = 1000 ∧
    sync_bytes_extent 1000 = 140080 ∧
    (swim_datagram.mk 80 3 1000).len < sync_bytes_extent 1000 := by
  refine ⟨by decide, rfl, rfl, by decide⟩

/-- C3 counterexample: with port range `[7946, 7948)`, the claim says
two auto-port create calls succeed and the third fails with
`total = 2`.  In fact every auto-port instance takes *two* pool ports
(membership and application), so the first create consumes 7946 and
7947 and already the second create fails with `total = 1`. -/
theorem node_manager_second_create_fails :
    (node_manager_create_node
        (node_manager_create_node (node_manager_init "srv" 7946 7948)
          { node_id := "", swim_port := 0, ws_port := 0,
            is_main_node := false, auto_start := false }).2
        { node_id := "", swim_port := 0, ws_port := 0,
          is_main_node := false, auto_start := false }).1 = none ∧
    (node_manager_create_node
        (node_manager_create_node (node_manager_init "srv" 7946 7948)
          { node_id := "", swim_port := 0, ws_port := 0,
            is_main_node := false, auto_start := false }).2
        { node_id := "", swim_port := 0, ws_port := 0,
          is_main_node := false, auto_start := false }).2.instance_count = 1 := by
  exact ⟨rfl, rfl⟩

/-- C3 (amended): with port range `[7946, 7948)`, the *first*
auto-port create call succeeds and consumes both ports of the pool
(membership port 7946, application port 7947); the *second* create
call returns failure and leaves the manager state unchanged, with
total instance count equal to 1. -/
theorem node_manager_port_exhaustion :
    ((node_manager_create_node (node_manager_init "srv" 7946 7948)
        { node_id := "", swim_port := 0, ws_port := 0,
          is_main_node := false, auto_start := false }).1.map
            (fun n => (n.swim_port, n.ws_port)) = some (7946, 7947)) ∧
    (node_manager_create_node (node_manager_init "srv" 7946 7948)
        { node_id := "", swim_port := 0, ws_port := 0,
          is_main_node := false, auto_start := false }).2.instance_count = 1 ∧
    (node_manager_create_node
        (node_manager_create_node (node_manager_init "srv" 7946 7948)
          { node_id := "", swim_port := 0, ws_port := 0,
            is_main_node := false, auto_start := false }).2
        { node_id := "", swim_port := 0, ws_port := 0,
          is_main_node := false, auto_start := false }).1 = none ∧
    (node_manager_create_node
        (node_manager_create_node (node_manager_init "srv" 7946 7948)
          { node_id := "", swim_port := 0, ws_port := 0,
            is_main_node := false, auto_start := false }).2
        { node_id := "", swim_port := 0, ws_port := 0,
          is_main_node := false, auto_start := false }).2 =
      (node_manager_create_node (node_manager_init "srv" 7946 7948)
        { node_id := "", swim_port := 0, ws_port := 0,
          is_main_node := false, auto_start := false }).2 := by
  exact ⟨rfl, rfl, rfl, rfl⟩

theorem find_free_port_spec (instances : List node_instance) (s e : Nat) :
    ∀ (fuel port p : Nat), s ≤ port → port < e →
      find_free_port instances s e fuel port = some p →
      s ≤ p ∧ p < e ∧ port_in_use instances p = false := by
  intro fuel
  induction fuel with
  | zero => intro port p _ _ h; simp [find_free_port] at h
  | succ fuel ih =>
    intro port p hs he h
    rw [find_free_port] at h
    by_cases hu : port_in_use instances port = true
    · rw [if_pos hu] at h
      by_cases hw : port + 1 ≥ e
      · rw [if_pos hw] at h
        exact ih s p le_rfl (lt_of_le_of_lt hs he) h
      · rw [if_neg hw] at h
        exact ih (port + 1) p (le_trans hs (Nat.le_succ port)) (by omega) h
    · rw [if_neg hu] at h
      cases h
      exact ⟨hs, he, by simpa using hu⟩

/-- C6 counterexample: the claim says a manager whose `port_end`
argument is 0 gets the default range `{7946, 8046}`.  An otherwise
un-configured manager (`port_start = 0` too) instead gets
`range_end = port_start + 100 = 100`, computed from the raw argument
— an empty range below `range_start = 7946`, not 8046. -/
theorem node_manager_default_range_end_is_100 :
    (node_manager_init "s" 0 0).port_range_start = 7946 ∧
    (node_manager_init "s" 0 0).port_range_end = 100 ∧
    ¬ (node_manager_init "s" 0 0).port_range_end = 8046 := by
  exact ⟨rfl, rfl, by decide⟩

/-- C6 (amended): the allocator never returns a non-zero port outside
`[range_start, range_end)` and never one held (as membership or
application port) by a currently-owned instance, and it preserves the
cursor well-formedness that `node_manager_init` establishes.  The
default for a zero `port_end` argument is `port_start + 100` computed
from the raw argument: it is 8046 when `port_start = 7946` is passed,
but an all-default manager (`port_start = port_end = 0`) gets
`range_end = 100`. -/
theorem node_manager_allocate_port_spec (mgr : node_manager) (sid : String)
    (h : alloc_wf mgr) :
    ((node_manager_allocate_port mgr).1 = 0 ∨
      (mgr.port_range_start ≤ (node_manager_allocate_port mgr).1 ∧
        (node_manager_allocate_port mgr).1 < mgr.port_range_end ∧
        port_in_use mgr.instances (node_manager_allocate_port mgr).1 = false)) ∧
    alloc_wf (node_manager_allocate_port mgr).2 ∧
    (∀ ps pe : Nat, alloc_wf (node_manager_init sid ps pe)) ∧
    (node_manager_init sid 7946 0).port_range_start = 7946 ∧
    (node_manager_init sid 7946 0).port_range_end = 8046 ∧
    (node_manager_init sid 0 0).port_range_end = 100 := by
  refine ⟨?_, ?_, ?_, rfl, rfl, rfl⟩
  · by_cases hne : mgr.port_range_start < mgr.port_range_end
    · rcases h with ⟨-, hcur⟩
      rcases hcur hne with ⟨h1, h2⟩
      unfold node_manager_allocate_port
      cases hfind : find_free_port mgr.instances mgr.port_range_start
          mgr.port_range_end (mgr.port_range_end - mgr.port_range_start)
          mgr.next_available_port with
      | none => simp
      | some p =>
        simp only [Option.some.injEq]
        right
        exact find_free_port_spec mgr.instances mgr.port_range_start
          mgr.port_range_end _ mgr.next_available_port p h1 h2 hfind
    · left
      unfold node_manager_allocate_port
      have hz : mgr.port_range_end - mgr.port_range_start = 0 := by omega
      rw [hz]
      simp [find_free_port]
  · unfold node_manager_allocate_port
    cases hfind : find_free_port mgr.instances mgr.port_range_start
        mgr.port_range_end (mgr.port_range_end - mgr.port_range_start)
        mgr.next_available_port with
    | none => simpa using h
    | some p =>
      by_cases hne : mgr.port_range_start < mgr.port_range_end
      · rcases h with ⟨h0, hcur⟩
        rcases hcur hne with ⟨h1, h2⟩
        have hp := find_free_port_spec mgr.instances mgr.port_range_start
          mgr.port_range_end _ mgr.next_available_port p h1 h2 hfind
        refine ⟨by simpa using h0, fun _ => ?_⟩
        by_cases hw : p + 1 ≥ mgr.port_range_end
        · simp only [hw, if_pos]; omega
        · simp only [hw, if_neg, if_false]; omega
      · have hz : mgr.port_range_end - mgr.port_range_start = 0 := by omega
        rw [hz] at hfind
        simp [find_free_port] at hfind
  · intro ps pe
    unfold alloc_wf node_manager_init
    by_cases hps : ps ≠ 0
    · simp [hps]; omega
    · simp [hps]

/-- C6 witness: the allocator specification applied to a freshly
initialised manager with range `[7946, 7948)`. -/
theorem node_manager_allocate_port_spec_witness :
    alloc_wf (node_manager_init "w" 7946 7948) ∧
    ((node_manager_allocate_port (node_manager_init "w" 7946 7948)).1 = 0 ∨
      ((node_manager_init "w" 7946 7948).port_range_start ≤
          (node_manager_allocate_port (node_manager_init "w" 7946 7948)).1 ∧
        (node_manager_allocate_port (node_manager_init "w" 7946 7948)).1 <
          (node_manager_init "w" 7946 7948).port_range_end ∧
        port_in_use (node_manager_init "w" 7946 7948).instances
          (node_manager_allocate_port (node_manager_init "w" 7946 7948)).1 = false)) :=
  ⟨by unfold alloc_wf; decide,
    (node_manager_allocate_port_spec (node_manager_init "w" 7946 7948) "w"
      (by unfold alloc_wf; decide)).1⟩

theorem swim_update_node_state_eq (m : swim_node) (s : Nat) :
    swim_update_node_state m s = { m with state := s } := by
  unfold swim_update_node_state
  split
  · next h => subst h; rfl
  · rfl

/-- The membership record built for a previously-unknown id by the
`Sync` loop. -/
def node_from_update (u : swim_node_update) : swim_node :=
  { id := u.id, address := u.address, port := u.port,
    state := u.state, incarnation := u.incarnation,
    is_local := false, is_main_node := u.is_main_node != 0 }

theorem swim_apply_sync_update_local (ctx : swim_context) (u : swim_node_update)
    (h : (u.id == ctx.local_id) = true) : swim_apply_sync_update ctx u = ctx := by
  unfold swim_apply_sync_update
  rw [h]
  rfl

theorem swim_apply_sync_update_new (ctx : swim_context) (u : swim_node_update)
    (hu : (u.id == ctx.local_id) = false)
    (h : swim_find_node ctx.nodes u.id = none) :
    swim_apply_sync_update ctx u =
      { ctx with nodes := node_from_update u :: ctx.nodes,
                 node_count := ctx.node_count + 1 } := by
  unfold swim_apply_sync_update swim_add_node
  rw [hu]
  simp only [Bool.false_eq_true, if_false, swim_create_node, h, Option.isSome_none]
  rfl

/-- The per-record overwrite applied to a known node whose
incarnation is superseded. -/
def merge_update (u : swim_node_update) (m : swim_node) : swim_node :=
  { m with state := u.state, incarnation := u.incarnation,
           is_main_node := u.is_main_node != 0 }

theorem swim_apply_sync_update_found (ctx : swim_context) (u : swim_node_update)
    (n : swim_node) (hu : (u.id == ctx.local_id) = false)
    (h : swim_find_node ctx.nodes u.id = some n) :
    swim_apply_sync_update ctx u =
      if n.incarnation < u.incarnation then
        { ctx with nodes :=
            (update_first (fun m => m.id == u.id) (merge_update u) ctx.nodes) }
      else ctx := by
  unfold swim_apply_sync_update
  rw [hu]
  simp only [Bool.false_eq_true, if_false, h]
  split
  · have he : (fun m => swim_update_node_state
        { m with incarnation := u.incarnation,
                 is_main_node := u.is_main_node != 0 } u.state) = merge_update u := by
      funext m
      rw [swim_update_node_state_eq]
      rfl
    rw [he]
  · rfl

/-- C1: Sync merge is monotonic per node id.  For a known non-local
id, a record with strictly greater incarnation replaces the local
state, incarnation and `is_main` flag (first conjunct), while a
record with equal or smaller incarnation leaves the engine — and so
the local copy — entirely unchanged (second conjunct).  Applying two
Sync records for the same previously-unknown non-local id ends in
the state of the strictly greater incarnation (third conjunct), and
with an equal or smaller second incarnation the earlier record's
state is preserved (fourth conjunct). -/
theorem swim_sync_merge_monotonic
    (ctx : swim_context) (u r1 r2 : swim_node_update) (n : swim_node)
    (hu : u.id ≠ ctx.local_id)
    (hfind : swim_find_node ctx.nodes u.id = some n)
    (hid : r2.id = r1.id) (hr1 : r1.id ≠ ctx.local_id)
    (hnone : swim_find_node ctx.nodes r1.id = none) :
    (n.incarnation < u.incarnation →
      swim_find_node (swim_apply_sync_update ctx u).nodes u.id =
        some (merge_update u n)) ∧
    (u.incarnation ≤ n.incarnation → swim_apply_sync_update ctx u = ctx) ∧
    (r1.incarnation < r2.incarnation →
      swim_find_node (swim_handle_sync ctx [r1, r2]).nodes r1.id =
        some (merge_update r2 (node_from_update r1))) ∧
    (r2.incarnation ≤ r1.incarnation →
      swim_find_node (swim_handle_sync ctx [r1, r2]).nodes r1.id =
        some (node_from_update r1)) := by
  have hbu : (u.id == ctx.local_id) = false := by simp [hu]
  have hbr1 : (r1.id == ctx.local_id) = false := by simp [hr1]
  have hbr2 : (r2.id == ctx.local_id) = false := by rw [hid]; exact hbr1
  have hstep1 : swim_apply_sync_update ctx r1 =
      { ctx with nodes := node_from_update r1 :: ctx.nodes,
                 node_count := ctx.node_count + 1 } :=
    swim_apply_sync_update_new ctx r1 hbr1 hnone
  have hfind2 : swim_find_node (node_from_update r1 :: ctx.nodes) r2.id =
      some (node_from_update r1) := by
    unfold swim_find_node
    rw [List.find?_cons_of_pos]
    show ((node_from_update r1).id == r2.id) = true
    rw [hid]
    exact beq_self_eq_true r1.id
  have hsync : swim_handle_sync ctx [r1, r2] =
      swim_apply_sync_update (swim_apply_sync_update ctx r1) r2 := rfl
  refine ⟨?_, ?_, ?_, ?_⟩
  · intro hlt
    rw [swim_apply_sync_update_found ctx u n hbu hfind, if_pos hlt]
    exact update_first_find? (fun m => m.id == u.id) (merge_update u)
      (fun m hm => hm) ctx.nodes n hfind
  · intro hle
    rw [swim_apply_sync_update_found ctx u n hbu hfind, if_neg (not_lt.mpr hle)]
  · intro hlt
    rw [← hid, hsync, hstep1]
    rw [swim_apply_sync_update_found
        { ctx with nodes := node_from_update r1 :: ctx.nodes,
                   node_count := ctx.node_count + 1 }
        r2 (node_from_update r1) hbr2 hfind2,
      if_pos (show (node_from_update r1).incarnation < r2.incarnation from hlt)]
    exact update_first_find? (fun m => m.id == r2.id) (merge_update r2)
      (fun m hm => hm) _ _ hfind2
  · intro hle
    rw [← hid, hsync, hstep1]
    rw [swim_apply_sync_update_found
        { ctx with nodes := node_from_update r1 :: ctx.nodes,
                   node_count := ctx.node_count + 1 }
        r2 (node_from_update r1) hbr2 hfind2,
      if_neg (show ¬ (node_from_update r1).incarnation < r2.incarnation from
        not_lt.mpr hle)]
    exact hfind2

/-- C1 witness: a two-node engine; a record with incarnation 5
supersedes the known node at incarnation 3, and for a fresh id the
pair (incarnation 4, then 6) ends at the 6-record's state. -/
theorem swim_sync_merge_monotonic_witness :
    swim_find_node (swim_apply_sync_update
        (swim_apply_sync_update (swim_init "a" 7946)
          { id := "p", address := "10.0.0.2", port := 2, state := 0,
            incarnation := 3, is_main_node := 0 })
        { id := "p", address := "10.0.0.2", port := 2, state := 2,
          incarnation := 5, is_main_node := 1 }).nodes "p" =
      some (merge_update
        { id := "p", address := "10.0.0.2", port := 2, state := 2,
          incarnation := 5, is_main_node := 1 }
        (node_from_update
          { id := "p", address := "10.0.0.2", port := 2, state := 0,
            incarnation := 3, is_main_node := 0 })) ∧
    swim_find_node (swim_handle_sync
        (swim_apply_sync_update (swim_init "a" 7946)
          { id := "p", address := "10.0.0.2", port := 2, state := 0,
            incarnation := 3, is_main_node := 0 })
        [{ id := "q", address := "10.0.0.3", port := 3, state := 1,
           incarnation := 4, is_main_node := 0 },
         { id := "q", address := "10.0.0.3", port := 3, state := 0,
           incarnation := 6, is_main_node := 1 }]).nodes "q" =
      some (merge_update
        { id := "q", address := "10.0.0.3", port := 3, state := 0,
          incarnation := 6, is_main_node := 1 }
        (node_from_update
          { id := "q", address := "10.0.0.3", port := 3, state := 1,
            incarnation := 4, is_main_node := 0 })) := by
  have h := swim_sync_merge_monotonic
    (swim_apply_sync_update (swim_init "a" 7946)
      { id := "p", address := "10.0.0.2", port := 2, state := 0,
        incarnation := 3, is_main_node := 0 })
    { id := "p", address := "10.0.0.2", port := 2, state := 2,
      incarnation := 5, is_main_node := 1 }
    { id := "q", address := "10.0.0.3", port := 3, state := 1,
      incarnation := 4, is_main_node := 0 }
    { id := "q", address := "10.0.0.3", port := 3, state := 0,
      incarnation := 6, is_main_node := 1 }
    (node_from_update
      { id := "p", address := "10.0.0.2", port := 2, state := 0,
        incarnation := 3, is_main_node := 0 })
    (by decide) (by decide) (by decide) (by decide) (by decide)
  exact ⟨h.1 (by decide), h.2.2.1 (by decide)⟩

theorem drain_loop_spec :
    ∀ (pending completed : List task) (cc tp : Nat),
      cc + pending.length < 2 ^ 32 → tp + pending.length < 2 ^ 64 →
      pending.length < 2 ^ 32 →
      drain_loop pending completed pending.length cc tp =
        (pending.reverse ++ completed, 0, cc + pending.length,
          tp + pending.length, pending.map (fun t => (t.task_id, true))) := by
  intro pending
  induction pending with
  | nil => intro completed cc tp _ _ _; simp [drain_loop]
  | cons t rest ih =>
    intro completed cc tp hcc htp hlen
    have hlr : rest.length < 2 ^ 32 := by simp at hlen; omega
    have h1 : (rest.length + 1 + (2 ^ 32 - 1)) % 2 ^ 32 = rest.length := by
      have : rest.length + 1 + (2 ^ 32 - 1) = rest.length + 2 ^ 32 := by omega
      rw [this, Nat.add_mod_right, Nat.mod_eq_of_lt hlr]
    have h2 : (cc + 1) % 2 ^ 32 = cc + 1 := by
      apply Nat.mod_eq_of_lt; simp at hcc; omega
    have h3 : (tp + 1) % 2 ^ 64 = tp + 1 := by
      apply Nat.mod_eq_of_lt; simp at htp; omega
    have hrec := ih (t :: completed) (cc + 1) (tp + 1)
      (by simp at hcc ⊢; omega) (by simp at htp ⊢; omega) hlr
    show drain_loop (t :: rest) completed (rest.length + 1) cc tp = _
    rw [drain_loop, h1, h2, h3, hrec]
    simp [Nat.add_assoc, Nat.add_comm 1 rest.length]

/-- C4: a Leader tick drains the whole pending queue in one call:
afterwards the pending list is empty and `pending_count` is 0, the
completed count and `tasks_processed` each grew by the number of
drained tasks, the completed list received every drained task, and
`on_task_complete` fired exactly once per drained task — in queue
order — with `success = true`. -/
theorem coordinator_leader_tick_drains
    (coord : node_coordinator) (ctx : swim_context) (now rt : Int)
    (hst : coord.state = .leader)
    (hpc : coord.pending_count = coord.pending_tasks.length)
    (hcc : coord.completed_count + coord.pending_tasks.length < 2 ^ 32)
    (htp : coord.tasks_processed + coord.pending_tasks.length < 2 ^ 64)
    (hlen : coord.pending_tasks.length < 2 ^ 32) :
    (coordinator_process coord ctx now rt).1.pending_tasks = [] ∧
    (coordinator_process coord ctx now rt).1.pending_count = 0 ∧
    (coordinator_process coord ctx now rt).1.completed_count =
      coord.completed_count + coord.pending_tasks.length ∧
    (coordinator_process coord ctx now rt).1.tasks_processed =
      coord.tasks_processed + coord.pending_tasks.length ∧
    (coordinator_process coord ctx now rt).1.completed_tasks =
      coord.pending_tasks.reverse ++ coord.completed_tasks ∧
    (coordinator_process coord ctx now rt).2.2 =
      coord.pending_tasks.map (fun t => (t.task_id, true)) := by
  have hd := drain_loop_spec coord.pending_tasks coord.completed_tasks
    coord.completed_count coord.tasks_processed hcc htp hlen
  simp only [coordinator_process, hst, hpc, hd]
  simp

def c4_demo_ctx : swim_context := swim_init "n1" 7946

def c4_demo_coord : node_coordinator :=
  coordinator_submit_task (coordinator_submit_task (coordinator_submit_task
    (coordinator_init c4_demo_ctx true 0 200).1 "t1" 0 0 5) "t2" 1 2 6) "t3" 2 0 7

/-- C4 witness: three tasks submitted to a Leader, one tick:
`pending = 0`, `completed = 3`, three `success = true` callbacks. -/
theorem coordinator_leader_tick_drains_witness :
    (coordinator_process c4_demo_coord c4_demo_ctx 10 200).1.pending_count = 0 ∧
    (coordinator_process c4_demo_coord c4_demo_ctx 10 200).1.completed_count = 3 ∧
    (coordinator_process c4_demo_coord c4_demo_ctx 10 200).2.2 =
      [("t3", true), ("t2", true), ("t1", true)] := by
  have h := coordinator_leader_tick_drains c4_demo_coord c4_demo_ctx 10 200
    (by decide) (by decide) (by decide) (by decide) (by decide)
  refine ⟨h.2.1, ?_, ?_⟩
  · rw [h.2.2.1]; decide
  · rw [h.2.2.2.2.2]; decide

/-- C5: a Follower tick before the deadline changes nothing; the
first tick with `now` past `election_timeout` on an engine reporting
at most one Alive node promotes straight to Leader (the election
auto-wins); a Candidate tick promotes to Leader exactly when
`votes_received > alive_count / 2`; and a fresh election always
starts with the own vote, `votes_received = 1`. -/
theorem coordinator_election (coord : node_coordinator) (ctx : swim_context)
    (now rt : Int) :
    (coord.state = .follower → ¬ now > coord.election_timeout →
      coordinator_process coord ctx now rt = (coord, ctx, [])) ∧
    (coord.state = .follower → now > coord.election_timeout →
      swim_get_node_count ctx NODE_STATE_ALIVE ≤ 1 →
      (coordinator_process coord ctx now rt).1.state = .leader) ∧
    (coord.state = .candidate →
      ((coordinator_process coord ctx now rt).1.state = .leader ↔
        swim_get_node_count ctx NODE_STATE_ALIVE / 2 < coord.votes_received)) ∧
    (coordinator_start_election coord ctx now rt).1.votes_received = 1 := by
  refine ⟨?_, ?_, ?_, ?_⟩
  · intro hf hlt
    simp only [coordinator_process, hf]
    rw [if_neg hlt]
  · intro hf hlt halive
    simp only [coordinator_process, hf, if_pos hlt, coordinator_start_election,
      if_pos halive]
    cases hloc : swim_get_local_node ctx <;> simp [hloc]
  · intro hc
    simp only [coordinator_process, hc]
    by_cases hv : swim_get_node_count ctx NODE_STATE_ALIVE / 2 < coord.votes_received
    · simp only [hv, if_pos, iff_true]
      cases hloc : swim_get_local_node ctx <;> simp [hloc]
    · simp only [hv, if_neg, if_false, iff_false]
      simp [hc]
  · unfold coordinator_start_election
    by_cases halive : swim_get_node_count ctx NODE_STATE_ALIVE ≤ 1
    · simp only [halive, if_pos, if_true]
      cases hloc : swim_get_local_node ctx <;> simp [hloc]
    · simp [halive]

/-- C5 witness: a Follower created alone (`alive = 1`) with deadline
200: a tick at `now = 100` is a no-op; a tick at `now = 300` makes it
Leader. -/
theorem coordinator_election_witness :
    coordinator_process (coordinator_init (swim_init "n1" 7946) false 0 200).1
      (swim_init "n1" 7946) 100 180 =
      ((coordinator_init (swim_init "n1" 7946) false 0 200).1,
        swim_init "n1" 7946, []) ∧
    (coordinator_process (coordinator_init (swim_init "n1" 7946) false 0 200).1
      (swim_init "n1" 7946) 300 180).1.state = .leader := by
  have h := coordinator_election (coordinator_init (swim_init "n1" 7946) false 0 200).1
    (swim_init "n1" 7946) 100 180
  have h2 := coordinator_election (coordinator_init (swim_init "n1" 7946) false 0 200).1
    (swim_init "n1" 7946) 300 180
  exact ⟨h.1 (by decide) (by decide), h2.2.1 (by decide) (by decide) (by decide)⟩

theorem swim_init_nodes (local_id : String) (port : Nat) :
    (swim_init local_id port).nodes =
      [{ swim_create_node local_id "127.0.0.1" (if port ≠ 0 then port else 7946)
          with is_local := true }] := by
  unfold swim_init swim_add_node swim_find_node
  simp

/-- C7 counterexample: the wire `state` byte of a `Sync` record is
adopted by a plain cast, so a record with `state = 7` creates a node
counted by none of the four `count_by_state` queries: after applying
it to a fresh engine the four counts sum to 1 while the node list
holds 2 records. -/
theorem swim_state_counts_not_partition :
    swim_get_node_count (swim_apply_sync_update (swim_init "n1" 7946)
      { id := "x", address := "10.0.0.9", port := 1, state := 7,
        incarnation := 1, is_main_node := 0 }) NODE_STATE_ALIVE +
    swim_get_node_count (swim_apply_sync_update (swim_init "n1" 7946)
      { id := "x", address := "10.0.0.9", port := 1, state := 7,
        incarnation := 1, is_main_node := 0 }) NODE_STATE_SUSPECT +
    swim_get_node_count (swim_apply_sync_update (swim_init "n1" 7946)
      { id := "x", address := "10.0.0.9", port := 1, state := 7,
        incarnation := 1, is_main_node := 0 }) NODE_STATE_DEAD +
    swim_get_node_count (swim_apply_sync_update (swim_init "n1" 7946)
      { id := "x", address := "10.0.0.9", port := 1, state := 7,
        incarnation := 1, is_main_node := 0 }) NODE_STATE_LEFT = 1 ∧
    (swim_apply_sync_update (swim_init "n1" 7946)
      { id := "x", address := "10.0.0.9", port := 1, state := 7,
        incarnation := 1, is_main_node := 0 }).nodes.length = 2 ∧
    (1 : Nat) ≠ 2 := by
  exact ⟨by decide, by decide, by decide⟩

theorem countP_state_partition :
    ∀ ns : List swim_node, (∀ n ∈ ns, n.state < 4) →
      ns.countP (fun n => n.state == 0) + ns.countP (fun n => n.state == 1) +
        ns.countP (fun n => n.state == 2) + ns.countP (fun n => n.state == 3) =
        ns.length := by
  intro ns
  induction ns with
  | nil => intro _; rfl
  | cons a l ih =>
    intro h
    have ha := h a (List.mem_cons_self ..)
    have ihl := ih (fun n hn => h n (List.mem_cons_of_mem _ hn))
    simp only [List.countP_cons, List.length_cons]
    have hc : a.state = 0 ∨ a.state = 1 ∨ a.state = 2 ∨ a.state = 3 := by omega
    rcases hc with hc | hc | hc | hc <;> rw [hc] <;> simp <;> omega

theorem swim_apply_sync_update_states_valid (ctx : swim_context)
    (u : swim_node_update) (hv : ∀ n ∈ ctx.nodes, n.state < 4)
    (hu : u.state < 4) :
    ∀ n ∈ (swim_apply_sync_update ctx u).nodes, n.state < 4 := by
  by_cases hb : (u.id == ctx.local_id) = true
  · rw [swim_apply_sync_update_local _ _ hb]; exact hv
  · have hb' : (u.id == ctx.local_id) = false := by
      exact Bool.eq_false_iff.mpr hb
    cases hf : swim_find_node ctx.nodes u.id with
    | none =>
      rw [swim_apply_sync_update_new _ _ hb' hf]
      intro n hn
      rcases List.mem_cons.mp hn with rfl | hn
      · simpa [node_from_update] using hu
      · exact hv n hn
    | some m =>
      rw [swim_apply_sync_update_found _ _ m hb' hf]
      by_cases hlt : m.incarnation < u.incarnation
      · rw [if_pos hlt]
        intro n hn
        rcases update_first_mem _ _ _ n hn with hn | ⟨m', _, rfl⟩
        · exact hv n hn
        · simpa [merge_update] using hu
      · rw [if_neg hlt]; exact hv

theorem swim_handle_sync_states_valid :
    ∀ (us : List swim_node_update) (ctx : swim_context),
      (∀ n ∈ ctx.nodes, n.state < 4) → (∀ u ∈ us, u.state < 4) →
      ∀ n ∈ (swim_handle_sync ctx us).nodes, n.state < 4 := by
  intro us
  induction us with
  | nil => intro ctx hv _; exact hv
  | cons u us ih =>
    intro ctx hv hu
    have h1 := swim_apply_sync_update_states_valid ctx u hv
      (hu u (List.mem_cons_self ..))
    exact ih (swim_apply_sync_update ctx u) h1
      (fun v hv' => hu v (List.mem_cons_of_mem _ hv'))

/-- C7 (amended): for every engine state reached from `swim_init` by
applying incoming Sync records whose `state` bytes are among the four
defined states, the per-state counts partition the node list:
`count(Alive) + count(Suspect) + count(Dead) + count(Left)` equals
the total number of node records. -/
theorem swim_state_counts_partition (local_id : String) (port : Nat)
    (updates : List swim_node_update) (h : ∀ u ∈ updates, u.state < 4) :
    swim_get_node_count (swim_handle_sync (swim_init local_id port) updates)
        NODE_STATE_ALIVE +
      swim_get_node_count (swim_handle_sync (swim_init local_id port) updates)
        NODE_STATE_SUSPECT +
      swim_get_node_count (swim_handle_sync (swim_init local_id port) updates)
        NODE_STATE_DEAD +
      swim_get_node_count (swim_handle_sync (swim_init local_id port) updates)
        NODE_STATE_LEFT =
      (swim_handle_sync (swim_init local_id port) updates).nodes.length := by
  have hinit : ∀ n ∈ (swim_init local_id port).nodes, n.state < 4 := by
    intro n hn
    rw [swim_init_nodes] at hn
    simp only [List.mem_singleton] at hn
    subst hn
    simp [swim_create_node]
    decide
  exact countP_state_partition _
    (swim_handle_sync_states_valid updates (swim_init local_id port) hinit h)

/-- C7 witness: the partition at a concrete engine after two valid
Sync records. -/
theorem swim_state_counts_partition_witness :
    (∀ u ∈ [({ id := "p", address := "10.0.0.2", port := 2, state := 1,
                incarnation := 2, is_main_node := 0 } : swim_node_update),
             { id := "q", address := "10.0.0.3", port := 3, state := 3,
                incarnation := 9, is_main_node := 1 }], u.state < 4) ∧
    swim_get_node_count (swim_handle_sync (swim_init "n1" 7946)
        [{ id := "p", address := "10.0.0.2", port := 2, state := 1,
           incarnation := 2, is_main_node := 0 },
         { id := "q", address := "10.0.0.3", port := 3, state := 3,
           incarnation := 9, is_main_node := 1 }]) NODE_STATE_ALIVE +
      swim_get_node_count (swim_handle_sync (swim_init "n1" 7946)
        [{ id := "p", address := "10.0.0.2", port := 2, state := 1,
           incarnation := 2, is_main_node := 0 },
         { id := "q", address := "10.0.0.3", port := 3, state := 3,
           incarnation := 9, is_main_node := 1 }]) NODE_STATE_SUSPECT +
      swim_get_node_count (swim_handle_sync (swim_init "n1" 7946)
        [{ id := "p", address := "10.0.0.2", port := 2, state := 1,
           incarnation := 2, is_main_node := 0 },
         { id := "q", address := "10.0.0.3", port := 3, state := 3,
           incarnation := 9, is_main_node := 1 }]) NODE_STATE_DEAD +
      swim_get_node_count (swim_handle_sync (swim_init "n1" 7946)
        [{ id := "p", address := "10.0.0.2", port := 2, state := 1,
           incarnation := 2, is_main_node := 0 },
         { id := "q", address := "10.0.0.3", port := 3, state := 3,
           incarnation := 9, is_main_node := 1 }]) NODE_STATE_LEFT =
      (swim_handle_sync (swim_init "n1" 7946)
        [{ id := "p", address := "10.0.0.2", port := 2, state := 1,
           incarnation := 2, is_main_node := 0 },
         { id := "q", address := "10.0.0.3", port := 3, state := 3,
           incarnation := 9, is_main_node := 1 }]).nodes.length :=
  ⟨by decide, swim_state_counts_partition "n1" 7946 _ (by decide)⟩

theorem swim_set_main_node_found (ctx : swim_context) (b : Bool)
    (l0 : swim_node) (h : swim_get_local_node ctx = some l0) :
    swim_set_main_node ctx b =
      { ctx with
          is_main_node := b,
          nodes := update_first (fun n => n.is_local)
            (fun n => { n with is_main_node := b }) ctx.nodes,
          incarnation := (ctx.incarnation + 1) % 2 ^ 32 } := by
  unfold swim_set_main_node
  rw [h]

/-- C8: `set_main(true)` then `set_main(false)` leaves the engine's
main flag false — on the context and on the local node record — and
bumps the context-level local `incarnation` by exactly 2 (as a
`uint32_t`; the hypothesis excludes the wrap-around). -/
theorem swim_set_main_twice (ctx : swim_context)
    (hl : (swim_get_local_node ctx).isSome = true)
    (hinc : ctx.incarnation + 2 < 2 ^ 32) :
    (swim_set_main_node (swim_set_main_node ctx true) false).is_main_node = false ∧
    (∀ l, swim_get_local_node
        (swim_set_main_node (swim_set_main_node ctx true) false) = some l →
      l.is_main_node = false) ∧
    (swim_set_main_node (swim_set_main_node ctx true) false).incarnation =
      ctx.incarnation + 2 := by
  obtain ⟨l0, hl0⟩ := Option.isSome_iff_exists.mp hl
  have h1 := swim_set_main_node_found ctx true l0 hl0
  have hf1 : swim_get_local_node (swim_set_main_node ctx true) =
      some { l0 with is_main_node := true } := by
    rw [h1]
    exact update_first_find? (fun n => n.is_local)
      (fun n => { n with is_main_node := true }) (fun n hn => hn) ctx.nodes l0 hl0
  have h2 := swim_set_main_node_found (swim_set_main_node ctx true) false
    { l0 with is_main_node := true } hf1
  have hf2 : swim_get_local_node
      (swim_set_main_node (swim_set_main_node ctx true) false) =
      some { l0 with is_main_node := false } := by
    rw [h2]
    exact update_first_find? (fun n => n.is_local)
      (fun n => { n with is_main_node := false }) (fun n hn => hn)
      (swim_set_main_node ctx true).nodes { l0 with is_main_node := true } hf1
  refine ⟨?_, ?_, ?_⟩
  · rw [h2]
  · intro l hfl
    rw [hf2] at hfl
    cases hfl
    rfl
  · rw [h2, h1]
    show ((ctx.incarnation + 1) % 2 ^ 32 + 1) % 2 ^ 32 = ctx.incarnation + 2
    rw [Nat.mod_eq_of_lt (by omega), Nat.mod_eq_of_lt (by omega)]

/-- C8 witness: a fresh engine (local record present, incarnation 1)
after `set_main(true); set_main(false)`. -/
theorem swim_set_main_twice_witness :
    ((swim_get_local_node (swim_init "n1" 7946)).isSome = true ∧
      (swim_init "n1" 7946).incarnation + 2 < 2 ^ 32) ∧
    (swim_set_main_node (swim_set_main_node (swim_init "n1" 7946) true)
      false).is_main_node = false ∧
    (swim_set_main_node (swim_set_main_node (swim_init "n1" 7946) true)
      false).incarnation = (swim_init "n1" 7946).incarnation + 2 := by
  have h := swim_set_main_twice (swim_init "n1" 7946) (by decide) (by decide)
  exact ⟨⟨by decide, by decide⟩, h.1, h.2.2⟩

/-- C9 counterexample: `sync_counter` is a function-scope C `static`,
one per process.  Four target-selecting rounds of engine 0 followed
by one round of engine 1 make engine 1's *first* round send a `Sync`
(the shared counter reaches 5 there), which the claimed per-engine
counter semantics forbids — the two semantics differ on this run. -/
theorem run_gossip_counter_is_shared :
    run_gossip [(0, true), (0, true), (0, true), (0, true), (1, true)] 0 =
      [(0, false), (0, false), (0, false), (0, false), (1, true)] ∧
    run_gossip_per_engine [(0, true), (0, true), (0, true), (0, true), (1, true)]
      (fun _ => 0) =
      [(0, false), (0, false), (0, false), (0, false), (1, false)] ∧
    ¬ run_gossip [(0, true), (0, true), (0, true), (0, true), (1, true)] 0 =
      run_gossip_per_engine
        [(0, true), (0, true), (0, true), (0, true), (1, true)] (fun _ => 0) := by
  refine ⟨rfl, rfl, by decide⟩

theorem run_gossip_get?_mod (es : List Nat) :
    ∀ (c i : Nat) (e : Nat) (s : Bool), c < 5 →
      (run_gossip (es.map (fun x => (x, true))) c).get? i = some (e, s) →
      (s = true ↔ (c + i + 1) % 5 = 0) := by
  induction es with
  | nil => intro c i e s hc h; simp [run_gossip] at h
  | cons a l ih =>
    intro c i e s hc h
    simp only [List.map_cons, run_gossip] at h
    cases i with
    | zero =>
      rw [List.get?_cons_zero] at h
      by_cases h5 : c + 1 ≥ 5
      · simp [gossip_round_step, h5] at h
        rw [h.2]
        simp
        omega
      · simp [gossip_round_step, h5] at h
        rw [h.2]
        simp
        omega
    | succ i =>
      rw [List.get?_cons_succ] at h
      by_cases h5 : c + 1 ≥ 5
      · simp only [gossip_round_step, if_pos h5, if_true] at h
        have heq : (c + (i + 1) + 1) % 5 = (0 + i + 1) % 5 := by omega
        rw [heq]
        exact ih 0 i e s (by omega) h
      · simp only [gossip_round_step, if_pos, if_neg h5] at h
        have heq : (c + (i + 1) + 1) % 5 = (c + 1 + i + 1) % 5 := by omega
        rw [heq]
        exact ih (c + 1) i e s (by omega) h

/-- C9 (amended): the sync counter is a single process-wide
`static`, shared by every engine in the process.  Along any sequence
of target-selecting rounds — attributed to arbitrary engines — it is
exactly every 5th round *of the process* that also sends the `Sync`
(the others send only the `Ping`), and a `Sync` message carries at
most 50 node records. -/
theorem run_gossip_sync_every_fifth :
    (∀ (es : List Nat) (i : Nat) (e : Nat) (s : Bool),
      (run_gossip (es.map (fun x => (x, true))) 0).get? i = some (e, s) →
      (s = true ↔ (i + 1) % 5 = 0)) ∧
    (∀ nodes : List swim_node, (swim_sync_records nodes).length ≤ 50) := by
  constructor
  · intro es i e s h
    have := run_gossip_get?_mod es 0 i e s (by omega) h
    simpa using this
  · intro nodes
    simp only [swim_sync_records, List.length_map, List.length_take]
    omega

/-- C9 witness: in the five-round run above, the 5th round of the
process (index 4) sends the `Sync`. -/
theorem run_gossip_sync_every_fifth_witness :
    (run_gossip ([0, 0, 0, 0, 1].map (fun x => (x, true))) 0).get? 4 =
      some (1, true) ∧ ((4 : Nat) + 1) % 5 = 0 :=
  ⟨rfl, (run_gossip_sync_every_fifth.1 [0, 0, 0, 0, 1] 4 1 true rfl).mp rfl⟩

theorem update_first_map (g : swim_node → Nat) (p : swim_node → Bool)
    (f : swim_node → swim_node) (hf : ∀ n, g (f n) = g n) :
    ∀ l : List swim_node, (update_first p f l).map g = l.map g := by
  intro l
  induction l with
  | nil => rfl
  | cons a l ih =>
    by_cases hp : p a = true
    · simp [update_first, hp, hf]
    · simp [update_first, hp, ih]

theorem swim_set_main_node_map_incarnation (ctx : swim_context) (b : Bool) :
    ((swim_set_main_node ctx b).nodes.map (fun m => m.incarnation)) =
      ctx.nodes.map (fun m => m.incarnation) := by
  unfold swim_set_main_node
  cases h : swim_get_local_node ctx with
  | none => rfl
  | some l =>
    exact update_first_map (fun m => m.incarnation) (fun m => m.is_local)
      (fun m => { m with is_main_node := b }) (fun m => rfl) ctx.nodes

theorem foldl_set_main_single :
    ∀ (bs : List Bool) (ctx : swim_context) (l : swim_node),
      ctx.nodes = [l] → l.is_local = true →
      ∃ l', (bs.foldl swim_set_main_node ctx).nodes = [l'] ∧
        l'.is_local = true ∧ l'.id = l.id ∧ l'.incarnation = l.incarnation := by
  intro bs
  induction bs with
  | nil => intro ctx l h hl; exact ⟨l, h, hl, rfl, rfl⟩
  | cons b bs ih =>
    intro ctx l h hl
    have hloc : swim_get_local_node ctx = some l := by
      unfold swim_get_local_node
      rw [h]
      simp [hl]
    have hstep := swim_set_main_node_found ctx b l hloc
    have hn : (swim_set_main_node ctx b).nodes = [{ l with is_main_node := b }] := by
      rw [hstep]
      show update_first _ _ ctx.nodes = _
      rw [h]
      simp [update_first, hl]
    obtain ⟨l', h1, h2, h3, h4⟩ :=
      ih (swim_set_main_node ctx b) { l with is_main_node := b } hn hl
    exact ⟨l', by simpa [List.foldl] using h1, h2, h3, h4⟩

/-- C10: `swim_set_main_node` only bumps the context-level
incarnation used in outgoing headers — the node records' own
`incarnation` fields are untouched (first conjunct).  Hence after any
sequence of `set_main` calls on an engine fresh from `swim_init`,
every record of its outgoing Sync payload — in particular the local
node's — still carries the creation-time incarnation 1 (second
conjunct), and a peer already holding a record for that id at
incarnation ≥ 1 is left entirely unchanged by such a record: no
`is_main` change is adopted (third conjunct). -/
theorem swim_set_main_not_disseminated
    (ctx peer : swim_context) (local_id : String) (port : Nat) (bs : List Bool)
    (rec : swim_node_update) (n : swim_node)
    (hrec : rec ∈ swim_sync_records
      ((bs.foldl swim_set_main_node (swim_init local_id port)).nodes))
    (hfind : swim_find_node peer.nodes rec.id = some n)
    (hpeer : 1 ≤ n.incarnation) :
    (∀ b, ((swim_set_main_node ctx b).nodes.map (fun m => m.incarnation)) =
      ctx.nodes.map (fun m => m.incarnation)) ∧
    rec.incarnation = 1 ∧
    swim_apply_sync_update peer rec = peer := by
  have hone : rec.incarnation = 1 := by
    obtain ⟨l', h1, _, _, h4⟩ := foldl_set_main_single bs (swim_init local_id port)
      { swim_create_node local_id "127.0.0.1" (if port ≠ 0 then port else 7946)
          with is_local := true }
      (swim_init_nodes local_id port) rfl
    rw [h1] at hrec
    simp only [swim_sync_records, List.take, List.map] at hrec
    rcases List.mem_singleton.mp hrec with rfl
    exact h4
  refine ⟨fun b => swim_set_main_node_map_incarnation ctx b, hone, ?_⟩
  by_cases hb : (rec.id == peer.local_id) = true
  · exact swim_apply_sync_update_local peer rec hb
  · rw [swim_apply_sync_update_found peer rec n (Bool.eq_false_iff.mpr hb) hfind,
      if_neg (by omega)]

/-- C10 witness: three `set_main` toggles on engine "a"; its Sync
record for "a" still has incarnation 1 and leaves a peer that knows
"a" at incarnation 1 unchanged. -/
theorem swim_set_main_not_disseminated_witness :
    ({ id := "a", address := "127.0.0.1", port := 1, state := 0,
       incarnation := 1, is_main_node := 1 } : swim_node_update) ∈
      swim_sync_records
        (([true, false, true].foldl swim_set_main_node (swim_init "a" 1)).nodes) ∧
    swim_apply_sync_update
      (swim_handle_sync (swim_init "b" 2)
        [{ id := "a", address := "127.0.0.1", port := 1, state := 0,
           incarnation := 1, is_main_node := 0 }])
      { id := "a", address := "127.0.0.1", port := 1, state := 0,
        incarnation := 1, is_main_node := 1 } =
      swim_handle_sync (swim_init "b" 2)
        [{ id := "a", address := "127.0.0.1", port := 1, state := 0,
           incarnation := 1, is_main_node := 0 }] := by
  have h := swim_set_main_not_disseminated (swim_init "a" 1)
    (swim_handle_sync (swim_init "b" 2)
      [{ id := "a", address := "127.0.0.1", port := 1, state := 0,
         incarnation := 1, is_main_node := 0 }])
    "a" 1 [true, false, true]
    { id := "a", address := "127.0.0.1", port := 1, state := 0,
      incarnation := 1, is_main_node := 1 }
    (node_from_update
      { id := "a", address := "127.0.0.1", port := 1, state := 0,
        incarnation := 1, is_main_node := 0 })
    (by decide) (by decide) (by decide)
  exact ⟨by decide, h.2.2⟩

end LSDAMM
